import Mathlib

/-!
Shallow embedding of `scripts/analyze_iac.py`, the Infrastructure-as-Code
quality analyzer.  Parsed YAML documents are modelled by the `Yaml` tree
type, findings by `Issue`, and the analyzer's methods by Lean functions of
the same names (Python's `self.issues` accumulator becomes explicit list
results; Python floats become exact rationals).
-/

namespace IaC

/-- A parsed YAML document, as produced by `yaml.safe_load`:
maps, sequences, scalars or null. -/
inductive Yaml : Type where
  | null : Yaml
  | bool (b : Bool) : Yaml
  | int (n : Int) : Yaml
  | str (s : String) : Yaml
  | seq (xs : List Yaml) : Yaml
  | map (kvs : List (String × Yaml)) : Yaml

/-- Python truthiness (`bool(x)`) of a loaded YAML value: `None`, `False`,
`0`, `""`, `[]` and `{}` are falsy. -/
def Yaml.falsy : Yaml → Bool
  | .null => true
  | .bool b => !b
  | .int n => n == 0
  | .str s => s.isEmpty
  | .seq xs => xs.isEmpty
  | .map kvs => kvs.isEmpty

/-- `d[k]` lookup on a mapping (first matching key); `none` on non-maps or
missing keys. -/
def Yaml.lookup : Yaml → String → Option Yaml
  | .map kvs, k => (kvs.find? (fun kv => kv.1 == k)).map (fun kv => kv.2)
  | _, _ => none

/-- Python `k in d` for a dict: key membership. -/
def Yaml.hasKey (y : Yaml) (k : String) : Bool :=
  (y.lookup k).isSome

/-- `isinstance(x, dict)`. -/
def Yaml.isMap : Yaml → Bool
  | .map _ => true
  | _ => false

/-- `isinstance(x, list)`. -/
def Yaml.isSeq : Yaml → Bool
  | .seq _ => true
  | _ => false

/-- Does `small` occur at the start of `big`? (character-list level). -/
def startsWithL : List Char → List Char → Bool
  | _, [] => true
  | [], _ :: _ => false
  | a :: as, b :: bs => a == b && startsWithL as bs

/-- Does `small` occur as a contiguous substring of `big`?
(character-list level). -/
def hasSubL : List Char → List Char → Bool
  | big, small =>
    startsWithL big small ||
      match big with
      | [] => false
      | _ :: rest => hasSubL rest small

/-- Python's `small in big` on strings: contiguous-substring test. -/
def strHasSub (big small : String) : Bool :=
  hasSubL big.data small.data

/-- Python `repr` of a string as it appears inside `str(dict)`: the text in
single quotes.  (CPython escapes quotes and backslashes; the escaping
inserts only punctuation characters, so occurrence of the purely
alphabetic keywords the analyzer greps for is unaffected, and it is
elided here.) -/
def pyQuote (s : String) : String :=
  "'" ++ s ++ "'"

mutual

/-- Python `str(x)` on a value loaded from YAML (`str` of a `dict` is its
`repr`: `\x7b'k': v, ...\x7d`; of a list `[a, b]`; `None`/`True`/`False`
for scalars). -/
def pyStr : Yaml → String
  | .null => "None"
  | .bool true => "True"
  | .bool false => "False"
  | .int n => toString n
  | .str s => pyQuote s
  | .seq xs => "[" ++ pyStrSeq xs ++ "]"
  | .map kvs => "\x7b" ++ pyStrMap kvs ++ "\x7d"

/-- Comma-separated rendering of the elements of a Python list. -/
def pyStrSeq : List Yaml → String
  | [] => ""
  | [x] => pyStr x
  | x :: y :: rest => pyStr x ++ ", " ++ pyStrSeq (y :: rest)

/-- Comma-separated rendering of the `'key': value` entries of a dict. -/
def pyStrMap : List (String × Yaml) → String
  | [] => ""
  | [(k, v)] => pyQuote k ++ ": " ++ pyStr v
  | (k, v) :: kv :: rest => pyQuote k ++ ": " ++ pyStr v ++ ", " ++ pyStrMap (kv :: rest)

end

/-- Issue severity: the `severity` field of `Issue` (`'error'`, `'warning'`,
`'info'`). -/
inductive Severity : Type where
  | error | warning | info
  deriving DecidableEq, Repr

/-- Issue category: the `category` field of `Issue`. -/
inductive Category : Type where
  | atomicity | idempotence | maintainability | standards
  deriving DecidableEq, Repr

/-- The `Issue` dataclass: one quality finding. -/
structure Issue : Type where
  file : String
  line : Nat
  severity : Severity
  category : Category
  message : String
  fix_suggestion : Option String := none
  deriving DecidableEq, Repr

/-- What reading and parsing one file produced: a tree, a
`yaml.YAMLError` from `safe_load`, or a non-YAML I/O or runtime error
(`OSError` etc.) raised while opening or reading. -/
inductive FileContent : Type where
  | ok (data : Yaml) : FileContent
  | yamlError (msg : String) : FileContent
  | ioError (msg : String) : FileContent

/-- Python `iter(x)` on a loaded value: lists yield elements, dicts yield
their keys, strings yield 1-character strings; other values raise
`TypeError` (`none`). -/
def pyIter : Yaml → Option (List Yaml)
  | .seq xs => some xs
  | .map kvs => some (kvs.map (fun kv => Yaml.str kv.1))
  | .str s => some (s.data.map (fun c => Yaml.str (String.singleton c)))
  | _ => none

/-- The fixed keyword set of the dedicated-module check in
`_analyze_tasks`. -/
def moduleKeywords : List String :=
  ["apt", "yum", "dnf", "pip", "systemctl", "service"]

/-- The fixed module-name set of the `state`-parameter check in
`_check_idempotence`. -/
def stateModules : List String :=
  ["apt", "yum", "dnf", "package", "service", "systemd"]

/-- The issues the `_analyze_tasks` loop body adds for one task at index
`task_idx` (0-based, over all entries of the tasks list): missing `name`,
`shell`/`command`/`raw` without `changed_when`, and the dedicated-module
hint keyed on `str(task)`. -/
def taskIssues (playbook_path : String) (task_idx : Nat) (task : Yaml) : List Issue :=
  if task.isMap then
    (if !task.hasKey "name" then
      [{ file := playbook_path, line := task_idx + 1, severity := .warning,
         category := .maintainability,
         message := "Task should have a descriptive name",
         fix_suggestion := some "Add 'name: <description>' to the task" }]
     else []) ++
    (if (["shell", "command", "raw"].any (fun m => task.hasKey m)) &&
        !task.hasKey "changed_when" then
      [{ file := playbook_path, line := task_idx + 1, severity := .warning,
         category := .idempotence,
         message := "shell/command/raw should define 'changed_when' for idempotence",
         fix_suggestion :=
           some "Add 'changed_when: <condition>' to indicate when task makes changes" }]
     else []) ++
    (if (task.hasKey "shell" || task.hasKey "command") &&
        moduleKeywords.any (fun keyword => strHasSub (pyStr task) keyword) then
      [{ file := playbook_path, line := task_idx + 1, severity := .info,
         category := .atomicity,
         message := "Consider using dedicated Ansible module instead of shell/command",
         fix_suggestion := some "Use apt, package, pip, systemd, or service modules" }]
     else [])
  else []

/-- `_analyze_tasks`: returns without issues unless `tasks` is a list,
else runs `taskIssues` over each indexed entry. -/
def analyze_tasks (playbook_path : String) (tasks : Yaml) : List Issue :=
  match tasks with
  | .seq ts => (ts.enum.map (fun it => taskIssues playbook_path it.1 it.2)).flatten
  | _ => []

/-- The issues `_check_idempotence` adds for one task of a play: for each
of the six module names present as a key whose value is a dict lacking
`state`, one line-1 `info`/`idempotence` issue. -/
def idemTaskIssues (playbook_path : String) (task : Yaml) : List Issue :=
  if task.isMap then
    (stateModules.map (fun module =>
      match task.lookup module with
      | some v =>
        if v.isMap && !v.hasKey "state" then
          [{ file := playbook_path, line := 1, severity := .info,
             category := .idempotence,
             message := module ++ " task should explicitly set 'state' parameter",
             fix_suggestion := some "Add 'state: present' or 'state: started' etc." }]
        else []
      | none => [])).flatten
  else []

/-- `_check_idempotence`: iterates `play["tasks"]` when the key is
present.  The boolean result records whether the Python `for` raised
`TypeError` on a non-iterable `tasks` value (the play's issues added so
far are kept; the caller's `except Exception` swallows the error). -/
def check_idempotence (playbook_path : String) (play : Yaml) : List Issue × Bool :=
  match play.lookup "tasks" with
  | none => ([], false)
  | some tasks =>
    match pyIter tasks with
    | none => ([], true)
    | some ts => ((ts.map (idemTaskIssues playbook_path)).flatten, false)

/-- The `for play_idx, play in enumerate(data)` loop of
`_analyze_playbook`: play-name check, `_analyze_tasks`,
`_check_idempotence`.  The boolean records an escaped exception, which
aborts the remaining plays. -/
def analyzePlays (playbook_path : String) : Nat → List Yaml → List Issue × Bool
  | _, [] => ([], false)
  | play_idx, play :: rest =>
    if play.isMap then
      let nameIss : List Issue :=
        if !play.hasKey "name" then
          [{ file := playbook_path, line := play_idx + 1, severity := .warning,
             category := .maintainability,
             message := "Play should have a descriptive name",
             fix_suggestion := some "Add 'name: <description>' to the play" }]
        else []
      let taskIss : List Issue :=
        match play.lookup "tasks" with
        | some tasks => analyze_tasks playbook_path tasks
        | none => []
      let idem := check_idempotence playbook_path play
      if idem.2 then (nameIss ++ taskIss ++ idem.1, true)
      else
        let restRes := analyzePlays playbook_path (play_idx + 1) rest
        (nameIss ++ taskIss ++ idem.1 ++ restRes.1, restRes.2)
    else analyzePlays playbook_path (play_idx + 1) rest

/-- `_analyze_playbook`: YAML errors become one line-1
`error`/`maintainability` issue; other exceptions are printed to stderr
and contribute nothing further; falsy documents are skipped; a truthy
non-list root yields the single "must be a list of plays" error and
evaluation stops; otherwise the plays are analyzed. -/
def analyze_playbook (playbook_path : String) (content : FileContent) : List Issue :=
  match content with
  | .ioError _ => []
  | .yamlError msg =>
    [{ file := playbook_path, line := 1, severity := .error,
       category := .maintainability,
       message := "YAML parsing error: " ++ msg }]
  | .ok data =>
    if data.falsy then []
    else if !data.isSeq then
      [{ file := playbook_path, line := 1, severity := .error,
         category := .maintainability,
         message := "Playbook must be a list of plays" }]
    else
      match data with
      | .seq plays => (analyzePlays playbook_path 0 plays).1
      | _ => []

/-- The message of the network-ownership finding for network
`network_name`. -/
def networkMsg (network_name : String) : String :=
  "Only root orchestrator can define networks (found: " ++ network_name ++ ")"

/-- The message of the socket-proxy finding for service `service_name`. -/
def socketMsg (service_name : String) : String :=
  "Service '" ++ service_name ++ "' accesses Docker socket directly"

/-- `compose_path.name == "docker-compose.yml" and compose_path.parent.name
== "stacks"`, the root-orchestrator test of `_analyze_compose_file` (the
path is modelled by its file name and its parent directory's name). -/
def isRootOrchestrator (fileName parentName : String) : Bool :=
  fileName == "docker-compose.yml" && parentName == "stacks"

/-- The issues the networks loop adds for one `(name, config)` entry of
`networks`: a dict config without truthy `external`, in a non-root file,
gets one line-1 `error`/`standards` issue. -/
def netIssue (compose_path : String) (is_root_orchestrator : Bool)
    (entry : String × Yaml) : List Issue :=
  let externalVal : Yaml := (entry.2.lookup "external").getD (Yaml.bool false)
  if entry.2.isMap && externalVal.falsy then
    if !is_root_orchestrator then
      [{ file := compose_path, line := 1, severity := .error,
         category := .standards,
         message := networkMsg entry.1,
         fix_suggestion :=
           some "Use 'external: true' or move network definition to root orchestrator" }]
    else []
  else []

/-- `isinstance(volume, str) and "/var/run/docker.sock" in volume`: the
per-entry test of the socket-proxy standard. -/
def isSocketVolume : Yaml → Bool
  | .str s => strHasSub s "/var/run/docker.sock"
  | _ => false

/-- The socket issues for the `volumes` entries of one service (`volume`
ranges over `iter(volumes)`): string entries containing the socket path,
for a service not named `docker-socket-proxy`. -/
def serviceSocketIssues (compose_path service_name : String)
    (vols : List Yaml) : List Issue :=
  (vols.map (fun volume =>
    if isSocketVolume volume then
      if service_name != "docker-socket-proxy" then
        [{ file := compose_path, line := 1, severity := .error,
           category := .standards,
           message := socketMsg service_name,
           fix_suggestion :=
             some "Use docker-socket-proxy service instead: DOCKER_HOST=tcp://docker-socket-proxy:2375" }]
      else []
    else [])).flatten

/-- The `for service_name, service_config in data["services"].items()`
socket loop.  The boolean records a `TypeError` from iterating a
non-iterable `volumes` value, which aborts the remaining services (and
everything after the loop). -/
def socketLoop (compose_path : String) : List (String × Yaml) → List Issue × Bool
  | [] => ([], false)
  | (service_name, service_config) :: rest =>
    if service_config.isMap then
      let volumes := (service_config.lookup "volumes").getD (Yaml.seq [])
      match pyIter volumes with
      | none => ([], true)
      | some vols =>
        let restRes := socketLoop compose_path rest
        (serviceSocketIssues compose_path service_name vols ++ restRes.1, restRes.2)
    else socketLoop compose_path rest

/-- The issues `_check_compose_security` adds for one service entry:
privileged-mode and host-network warnings. -/
def securityIssues (compose_path : String) (entry : String × Yaml) : List Issue :=
  if entry.2.isMap then
    (if ((entry.2.lookup "privileged").getD (Yaml.bool false)).falsy then []
     else
      [{ file := compose_path, line := 1, severity := .warning,
         category := .standards,
         message := "Service '" ++ entry.1 ++ "' uses privileged mode",
         fix_suggestion := some "Avoid privileged mode; use specific capabilities instead" }]) ++
    (if (match entry.2.lookup "network_mode" with
         | some (.str s) => s == "host"
         | _ => false) then
      [{ file := compose_path, line := 1, severity := .warning,
         category := .standards,
         message := "Service '" ++ entry.1 ++ "' uses host network mode",
         fix_suggestion := some "Use bridge networking and port mappings instead" }]
     else [])
  else []

/-- `_check_compose_security`: per-service privileged and host-network
checks (returns without issues when `services` is absent). -/
def check_compose_security (compose_path : String) (data : Yaml) : List Issue :=
  match data.lookup "services" with
  | some (.map skvs) => (skvs.map (securityIssues compose_path)).flatten
  | _ => []

/-- The services part of `_analyze_compose_file`: the socket loop (whose
`.items()` raises `AttributeError` on a non-dict `services`, aborting the
file with the issues added so far) followed by
`_check_compose_security`. -/
def composeServices (compose_path : String) (data : Yaml) : List Issue :=
  match data.lookup "services" with
  | some (.map skvs) =>
    if (socketLoop compose_path skvs).2 then (socketLoop compose_path skvs).1
    else (socketLoop compose_path skvs).1 ++ check_compose_security compose_path data
  | some _ => []
  | none => check_compose_security compose_path data

/-- `_analyze_compose_file`: YAML errors become one line-1
`error`/`maintainability` issue, other exceptions reach the
`except Exception` handler (stderr only); falsy documents are skipped.
On a truthy dict root, the networks loop runs (a non-dict `networks`
value makes `.items()` raise, aborting the file), then the services
checks.  A truthy non-dict root produces no issues: the `in` membership
tests either fail or the following subscript raises before any issue is
added. -/
def analyze_compose_file (fileName parentName compose_path : String)
    (content : FileContent) : List Issue :=
  match content with
  | .ioError _ => []
  | .yamlError msg =>
    [{ file := compose_path, line := 1, severity := .error,
       category := .maintainability,
       message := "YAML parsing error: " ++ msg }]
  | .ok data =>
    if data.falsy then []
    else
      match data with
      | .map _ =>
        let is_root_orchestrator := isRootOrchestrator fileName parentName
        match data.lookup "networks" with
        | some (.map nkvs) =>
          (nkvs.map (netIssue compose_path is_root_orchestrator)).flatten ++
            composeServices compose_path data
        | some _ => []
        | none => composeServices compose_path data
      | _ => []

/-- Per-severity deduction of `calc_score`. -/
def deduction : Severity → ℚ
  | .error => 10
  | .warning => 5
  | .info => 2

/-- `calc_score`: fold the deductions from 100, then floor at 0. -/
def calc_score (issues : List Issue) : ℚ :=
  max 0 (issues.foldl (fun score issue => score - deduction issue.severity) 100)

/-- The `category_issues` partition of `_calculate_scores`: the issues of
one category, in order. -/
def categoryIssues (issues : List Issue) (c : Category) : List Issue :=
  issues.filter (fun issue => issue.category == c)

/-- The five scores `_calculate_scores` writes into the report. -/
structure Scores : Type where
  atomicity_score : ℚ
  idempotence_score : ℚ
  maintainability_score : ℚ
  standards_score : ℚ
  overall_score : ℚ
  deriving DecidableEq, Repr

/-- `_calculate_scores`: per-category `calc_score` plus the fixed-weight
overall average. -/
def calculate_scores (issues : List Issue) : Scores :=
  { atomicity_score := calc_score (categoryIssues issues .atomicity)
    idempotence_score := calc_score (categoryIssues issues .idempotence)
    maintainability_score := calc_score (categoryIssues issues .maintainability)
    standards_score := calc_score (categoryIssues issues .standards)
    overall_score :=
      calc_score (categoryIssues issues .atomicity) * 0.25 +
        calc_score (categoryIssues issues .idempotence) * 0.30 +
        calc_score (categoryIssues issues .maintainability) * 0.20 +
        calc_score (categoryIssues issues .standards) * 0.25 }

/-- The summary dict of `_generate_summary`: total plus the by-severity
and by-category counters. -/
structure Summary : Type where
  total_issues : Nat
  errors : Nat
  warnings : Nat
  infos : Nat
  atomicity : Nat
  idempotence : Nat
  maintainability : Nat
  standards : Nat
  deriving DecidableEq, Repr

/-- One step of the counting loop of `_generate_summary`. -/
def bumpCounts (s : Summary) (issue : Issue) : Summary :=
  let s1 :=
    match issue.severity with
    | .error => { s with errors := s.errors + 1 }
    | .warning => { s with warnings := s.warnings + 1 }
    | .info => { s with infos := s.infos + 1 }
  match issue.category with
  | .atomicity => { s1 with atomicity := s1.atomicity + 1 }
  | .idempotence => { s1 with idempotence := s1.idempotence + 1 }
  | .maintainability => { s1 with maintainability := s1.maintainability + 1 }
  | .standards => { s1 with standards := s1.standards + 1 }

/-- `_generate_summary`: count issues by severity and category;
`total_issues` is `len(self.issues)`. -/
def generate_summary (issues : List Issue) : Summary :=
  issues.foldl bumpCounts
    { total_issues := issues.length, errors := 0, warnings := 0, infos := 0,
      atomicity := 0, idempotence := 0, maintainability := 0, standards := 0 }

/-- One file fed to the analyzer, modelled by its display path, its file
name, its parent directory's name, and what loading it produced. -/
structure SrcFile : Type where
  path : String
  fileName : String
  parentName : String
  content : FileContent

/-- The report assembled by `analyze_project` (the timestamp, taken from
the ambient clock, is omitted). -/
structure AnalysisReport : Type where
  scores : Scores
  issues : List Issue
  files_analyzed : Nat
  summary : Summary

/-- `analyze_project`: analyze every playbook file then every compose
file (each traversed file increments `files_analyzed`), then compute
scores and summary from the accumulated issues. -/
def analyze_project (playbooks composes : List SrcFile) : AnalysisReport :=
  let issues :=
    (playbooks.map (fun f => analyze_playbook f.path f.content)).flatten ++
      (composes.map (fun f =>
        analyze_compose_file f.fileName f.parentName f.path f.content)).flatten
  { scores := calculate_scores issues
    issues := issues
    files_analyzed := playbooks.length + composes.length
    summary := generate_summary issues }

/-- A warning-severity atomicity finding, used in concrete scoring
scenarios. -/
def warnA : Issue :=
  { file := "playbooks/p.yml", line := 1, severity := .warning,
    category := .atomicity, message := "m" }

/-- An error-severity atomicity finding, used in concrete scoring
scenarios. -/
def errA : Issue :=
  { file := "playbooks/p.yml", line := 1, severity := .error,
    category := .atomicity, message := "m" }

/-- A playbook file whose read raises an I/O error. -/
def ioFile : SrcFile :=
  { path := "playbooks/broken.yml", fileName := "broken.yml",
    parentName := "playbooks", content := .ioError "Permission denied" }

/-- A task whose only keyword occurrence ("service") is in its `name`
value, not in the shell text. -/
def kwTask : Yaml :=
  .map [("name", .str "Restart the traefik service"),
    ("shell", .str "echo hi"), ("changed_when", .str "false")]

/-- A compose document defining one non-external network, used in
concrete network-ownership scenarios. -/
def c6data : Yaml :=
  .map [("networks", .map [("traefik", .map [("driver", .str "bridge")])])]

/-- A compose document with one service mounting the Docker socket, used
in concrete socket-proxy scenarios. -/
def c7data : Yaml :=
  .map [("services", .map [("traefik",
    .map [("volumes", .seq [.str "/var/run/docker.sock:/var/run/docker.sock:ro"])])])]

/-- The number of `error`-severity `standards`-category findings with
message `m` in a findings list. -/
def countMsg (issues : List Issue) (m : String) : Nat :=
  (issues.filter (fun i =>
    i.severity == Severity.error && i.category == Category.standards
      && i.message == m)).length

/-- The `networks` value, when present, is a dict — so the analyzer's
`.items()` call on it does not raise and abort the file. -/
def networksOk (data : Yaml) : Bool :=
  match data.lookup "networks" with
  | some n => n.isMap
  | none => true

/-! ### Scorer lemmas -/

/-- The number of findings of severity `s` among the findings of
category `c`. -/
def countSevCat (issues : List Issue) (c : Category) (s : Severity) : Nat :=
  ((categoryIssues issues c).filter (fun issue => issue.severity == s)).length

/-- The spec's deduction formula for one category:
`max(0, 100 − 10·errors − 5·warnings − 2·infos)`. -/
def specCategoryScore (issues : List Issue) (c : Category) : ℚ :=
  max 0 (100 - (10 * (countSevCat issues c .error : ℚ)
    + 5 * (countSevCat issues c .warning : ℚ)
    + 2 * (countSevCat issues c .info : ℚ)))

lemma foldl_deduction (l : List Issue) (a : ℚ) :
    l.foldl (fun score issue => score - deduction issue.severity) a
      = a - (l.map (fun issue => deduction issue.severity)).sum := by
  induction l generalizing a with
  | nil => simp
  | cons i t ih => simp [ih]; ring

lemma calc_score_eq (l : List Issue) :
    calc_score l
      = max 0 (100 - (l.map (fun issue => deduction issue.severity)).sum) := by
  rw [calc_score, foldl_deduction]

lemma deduction_error : deduction .error = 10 := rfl

lemma deduction_warning : deduction .warning = 5 := rfl

lemma deduction_info : deduction .info = 2 := rfl

lemma dedSum_eq (l : List Issue) :
    (l.map (fun issue => deduction issue.severity)).sum
      = 10 * ((l.filter (fun i => i.severity == Severity.error)).length : ℚ)
        + 5 * ((l.filter (fun i => i.severity == Severity.warning)).length : ℚ)
        + 2 * ((l.filter (fun i => i.severity == Severity.info)).length : ℚ) := by
  induction l with
  | nil => simp
  | cons i t ih =>
    cases h : i.severity <;>
      simp [List.filter_cons, h, ih, deduction_error, deduction_warning,
        deduction_info] <;>
      ring

lemma calc_score_category (issues : List Issue) (c : Category) :
    calc_score (categoryIssues issues c) = specCategoryScore issues c := by
  rw [calc_score_eq, dedSum_eq]; rfl

lemma dedSum_nonneg (l : List Issue) :
    0 ≤ (l.map (fun issue => deduction issue.severity)).sum := by
  apply List.sum_nonneg
  intro x hx
  obtain ⟨i, _, rfl⟩ := List.mem_map.mp hx
  cases i.severity <;> simp [deduction]

lemma calc_score_nonneg (l : List Issue) : 0 ≤ calc_score l :=
  le_max_left 0 _

lemma calc_score_le_100 (l : List Issue) : calc_score l ≤ 100 := by
  rw [calc_score_eq]
  have := dedSum_nonneg l
  apply max_le (by norm_num) (by linarith)

/-! ### Summarizer lemmas -/

lemma bumpCounts_total (s : Summary) (i : Issue) :
    (bumpCounts s i).total_issues = s.total_issues := by
  cases i with
  | mk f l sev cat m fx => cases sev <;> cases cat <;> rfl

lemma bumpCounts_sevsum (s : Summary) (i : Issue) :
    (bumpCounts s i).errors + (bumpCounts s i).warnings + (bumpCounts s i).infos
      = s.errors + s.warnings + s.infos + 1 := by
  cases i with
  | mk f l sev cat m fx => cases sev <;> cases cat <;> simp [bumpCounts] <;> omega

lemma foldl_bumpCounts_total (l : List Issue) (s0 : Summary) :
    (l.foldl bumpCounts s0).total_issues = s0.total_issues := by
  induction l generalizing s0 with
  | nil => rfl
  | cons i t ih => rw [List.foldl_cons, ih, bumpCounts_total]

lemma foldl_bumpCounts_sevsum (l : List Issue) (s0 : Summary) :
    (l.foldl bumpCounts s0).errors + (l.foldl bumpCounts s0).warnings
        + (l.foldl bumpCounts s0).infos
      = s0.errors + s0.warnings + s0.infos + l.length := by
  induction l generalizing s0 with
  | nil => simp
  | cons i t ih =>
    rw [List.foldl_cons, ih, bumpCounts_sevsum, List.length_cons]
    omega

/-! ### Claims C1–C4 -/

/-- C1: in every run, each category score equals
`max(0, 100 − 10·errors − 5·warnings − 2·infos)` over that category's
findings, and the overall score is the fixed-weight combination
`atomicity·0.25 + idempotence·0.30 + maintainability·0.20 +
standards·0.25`. -/
theorem C1_score_formula (playbooks composes : List SrcFile) :
    ((analyze_project playbooks composes).scores.atomicity_score
        = specCategoryScore (analyze_project playbooks composes).issues .atomicity)
    ∧ ((analyze_project playbooks composes).scores.idempotence_score
        = specCategoryScore (analyze_project playbooks composes).issues .idempotence)
    ∧ ((analyze_project playbooks composes).scores.maintainability_score
        = specCategoryScore (analyze_project playbooks composes).issues .maintainability)
    ∧ ((analyze_project playbooks composes).scores.standards_score
        = specCategoryScore (analyze_project playbooks composes).issues .standards)
    ∧ (analyze_project playbooks composes).scores.overall_score
        = (analyze_project playbooks composes).scores.atomicity_score * 0.25
          + (analyze_project playbooks composes).scores.idempotence_score * 0.30
          + (analyze_project playbooks composes).scores.maintainability_score * 0.20
          + (analyze_project playbooks composes).scores.standards_score * 0.25 := by
  refine ⟨?_, ?_, ?_, ?_, ?_⟩ <;>
    simp [analyze_project, calculate_scores, calc_score_category]

/-- C2: in every run, `summary.total_issues` equals the length of the
findings sequence, and the by-severity counts sum to it. -/
theorem C2_summary_total (playbooks composes : List SrcFile) :
    (analyze_project playbooks composes).summary.total_issues
        = (analyze_project playbooks composes).issues.length
    ∧ (analyze_project playbooks composes).summary.errors
        + (analyze_project playbooks composes).summary.warnings
        + (analyze_project playbooks composes).summary.infos
      = (analyze_project playbooks composes).summary.total_issues := by
  constructor
  · simp [analyze_project, generate_summary, foldl_bumpCounts_total]
  · simp [analyze_project, generate_summary, foldl_bumpCounts_total,
      foldl_bumpCounts_sevsum]

/-- C3: in every run, the four category scores and the overall score all
lie in the closed interval `[0, 100]`. -/
theorem C3_score_bounds (playbooks composes : List SrcFile) :
    (0 ≤ (analyze_project playbooks composes).scores.atomicity_score
      ∧ (analyze_project playbooks composes).scores.atomicity_score ≤ 100)
    ∧ (0 ≤ (analyze_project playbooks composes).scores.idempotence_score
      ∧ (analyze_project playbooks composes).scores.idempotence_score ≤ 100)
    ∧ (0 ≤ (analyze_project playbooks composes).scores.maintainability_score
      ∧ (analyze_project playbooks composes).scores.maintainability_score ≤ 100)
    ∧ (0 ≤ (analyze_project playbooks composes).scores.standards_score
      ∧ (analyze_project playbooks composes).scores.standards_score ≤ 100)
    ∧ (0 ≤ (analyze_project playbooks composes).scores.overall_score
      ∧ (analyze_project playbooks composes).scores.overall_score ≤ 100) := by
  have ha0 := calc_score_nonneg (categoryIssues (analyze_project playbooks composes).issues .atomicity)
  have ha1 := calc_score_le_100 (categoryIssues (analyze_project playbooks composes).issues .atomicity)
  have hi0 := calc_score_nonneg (categoryIssues (analyze_project playbooks composes).issues .idempotence)
  have hi1 := calc_score_le_100 (categoryIssues (analyze_project playbooks composes).issues .idempotence)
  have hm0 := calc_score_nonneg (categoryIssues (analyze_project playbooks composes).issues .maintainability)
  have hm1 := calc_score_le_100 (categoryIssues (analyze_project playbooks composes).issues .maintainability)
  have hs0 := calc_score_nonneg (categoryIssues (analyze_project playbooks composes).issues .standards)
  have hs1 := calc_score_le_100 (categoryIssues (analyze_project playbooks composes).issues .standards)
  simp only [analyze_project, calculate_scores] at *
  refine ⟨⟨ha0, ha1⟩, ⟨hi0, hi1⟩, ⟨hm0, hm1⟩, ⟨hs0, hs1⟩, ?_, ?_⟩ <;> nlinarith

lemma categoryIssues_replicate_warnA (n : Nat) :
    categoryIssues (List.replicate n warnA) Category.atomicity
      = List.replicate n warnA := by
  apply List.filter_eq_self.mpr
  intro a ha
  rw [List.eq_of_mem_replicate ha]
  rfl

lemma dedSum_replicate_warnA (n : Nat) :
    (List.map (fun issue => deduction issue.severity)
      (List.replicate n warnA)).sum = 5 * n := by
  induction n with
  | zero => simp
  | succ k ih =>
    rw [List.replicate_succ, List.map_cons, List.sum_cons, ih,
      show deduction warnA.severity = 5 from rfl]
    push_cast
    ring

lemma calc_score_replicate_warnA :
    calc_score (categoryIssues (List.replicate 19 warnA) Category.atomicity) = 5 := by
  rw [categoryIssues_replicate_warnA, calc_score_eq, dedSum_replicate_warnA]
  norm_num [max_def]

lemma calc_score_err_replicate_warnA :
    calc_score (categoryIssues (errA :: List.replicate 19 warnA) Category.atomicity)
      = 0 := by
  have hfil : categoryIssues (errA :: List.replicate 19 warnA) Category.atomicity
      = errA :: List.replicate 19 warnA := by
    rw [categoryIssues, List.filter_cons_of_pos (by rfl)]
    exact congrArg _ (categoryIssues_replicate_warnA 19)
  rw [hfil, calc_score_eq, List.map_cons, List.sum_cons,
    show deduction errA.severity = 10 from rfl, dedSum_replicate_warnA]
  norm_num [max_def]

/-- C4 fails as stated: with 19 warning findings the atomicity score is 5
(not at the floor of 0), yet adding one error finding drops it to 0 — a
decrease of 5, not 10. -/
theorem C4_counterexample :
    ¬ (calc_score (categoryIssues (errA :: List.replicate 19 warnA) Category.atomicity)
          = calc_score (categoryIssues (List.replicate 19 warnA) Category.atomicity) - 10
        ∨ calc_score (categoryIssues (List.replicate 19 warnA) Category.atomicity) = 0) := by
  rw [calc_score_replicate_warnA, calc_score_err_replicate_warnA]
  norm_num

/-- C4 (amended): adding one error finding to a category never increases
that category's score; it decreases it by exactly 10 when the score was
at least 10, and otherwise drops it to the floor of 0. -/
theorem C4_amended_deduction (issues : List Issue) (c : Category) (e : Issue)
    (hsev : e.severity = .error) (hcat : e.category = c) :
    calc_score (categoryIssues (e :: issues) c) ≤ calc_score (categoryIssues issues c)
    ∧ (10 ≤ calc_score (categoryIssues issues c) →
        calc_score (categoryIssues issues c)
          - calc_score (categoryIssues (e :: issues) c) = 10)
    ∧ (calc_score (categoryIssues issues c) < 10 →
        calc_score (categoryIssues (e :: issues) c) = 0) := by
  have hfil : categoryIssues (e :: issues) c = e :: categoryIssues issues c := by
    simp [categoryIssues, List.filter_cons, hcat]
  rw [hfil, calc_score_eq, calc_score_eq, List.map_cons, List.sum_cons, hsev,
    deduction_error]
  have hnn := dedSum_nonneg (categoryIssues issues c)
  set S := (List.map (fun issue => deduction issue.severity)
    (categoryIssues issues c)).sum with hS
  refine ⟨?_, ?_, ?_⟩
  · apply max_le_max le_rfl
    linarith
  · intro h10
    rcases le_max_iff.mp h10 with h | h
    · norm_num at h
    · rw [max_eq_right (show (0 : ℚ) ≤ 100 - S by linarith),
        max_eq_right (show (0 : ℚ) ≤ 100 - (10 + S) by linarith)]
      ring
  · intro hlt
    have h : 100 - S < 10 := lt_of_le_of_lt (le_max_right 0 _) hlt
    exact max_eq_left (by linarith)

/-- Concrete instance of the amended C4: 19 warnings score 5; one more
error takes the score to the floor. -/
theorem C4_amended_witness :
    calc_score (categoryIssues (errA :: List.replicate 19 warnA) Category.atomicity)
        ≤ calc_score (categoryIssues (List.replicate 19 warnA) Category.atomicity)
    ∧ (10 ≤ calc_score (categoryIssues (List.replicate 19 warnA) Category.atomicity) →
        calc_score (categoryIssues (List.replicate 19 warnA) Category.atomicity)
          - calc_score (categoryIssues (errA :: List.replicate 19 warnA) Category.atomicity) = 10)
    ∧ (calc_score (categoryIssues (List.replicate 19 warnA) Category.atomicity) < 10 →
        calc_score (categoryIssues (errA :: List.replicate 19 warnA) Category.atomicity) = 0) :=
  C4_amended_deduction (List.replicate 19 warnA) Category.atomicity errA rfl rfl

/-! ### Claims C5, C8, C9, C10 -/

/-- C5 fails as stated: an empty-map root is a map rather than a
sequence, yet it is falsy, so `_analyze_playbook` returns before the
list-of-plays check and yields zero findings, not one. -/
theorem C5_counterexample :
    (analyze_playbook "playbooks/site.yml" (FileContent.ok (Yaml.map []))).length
      ≠ 1 := by
  decide

/-- C5 (amended): a playbook whose parsed root is a non-empty map yields
exactly one finding — severity `error`, category `maintainability`,
"Playbook must be a list of plays" — and no further rule evaluation
proceeds for that file. -/
theorem C5_amended_nonempty_map (playbook_path : String)
    (kvs : List (String × Yaml)) (h : kvs ≠ []) :
    analyze_playbook playbook_path (FileContent.ok (Yaml.map kvs))
      = [{ file := playbook_path, line := 1, severity := .error,
           category := .maintainability,
           message := "Playbook must be a list of plays" }] := by
  cases kvs with
  | nil => exact absurd rfl h
  | cons a t => rfl

/-- Concrete instance of the amended C5: a one-key map root yields the
single structural error finding. -/
theorem C5_amended_witness :
    ([("hosts", Yaml.str "all")] ≠ ([] : List (String × Yaml)))
    ∧ analyze_playbook "playbooks/site.yml"
        (FileContent.ok (Yaml.map [("hosts", Yaml.str "all")]))
      = [{ file := "playbooks/site.yml", line := 1, severity := .error,
           category := .maintainability,
           message := "Playbook must be a list of plays" }] :=
  ⟨List.cons_ne_nil _ _,
    C5_amended_nonempty_map "playbooks/site.yml" [("hosts", Yaml.str "all")]
      (List.cons_ne_nil _ _)⟩

/-- C8 fails as stated: a file that raises an I/O error adds no finding,
but `files_analyzed` is incremented before/regardless of the error, so a
run over just that file reports `files_analyzed = 1`, not 0 — the file is
not excluded from the count. -/
theorem C8_counterexample :
    (analyze_project [ioFile] []).issues = []
    ∧ (analyze_project [ioFile] []).files_analyzed = 1 :=
  ⟨rfl, rfl⟩

/-- C8 (amended): a playbook file that raises a non-YAML I/O or runtime
error contributes no finding and the rest of the run is unchanged, but
the file is still included in the `files_analyzed` count. -/
theorem C8_amended_io_error (f : SrcFile) (msg : String)
    (playbooks composes : List SrcFile) (h : f.content = .ioError msg) :
    (analyze_project (f :: playbooks) composes).issues
        = (analyze_project playbooks composes).issues
    ∧ (analyze_project (f :: playbooks) composes).files_analyzed
        = (analyze_project playbooks composes).files_analyzed + 1 := by
  have hpb : analyze_playbook f.path f.content = [] := by rw [h]; rfl
  constructor
  · simp [analyze_project, hpb]
  · simp [analyze_project]
    omega

/-- Concrete instance of the amended C8: one unreadable playbook, empty
run otherwise. -/
theorem C8_amended_witness :
    (analyze_project [ioFile] []).issues = (analyze_project [] []).issues
    ∧ (analyze_project [ioFile] []).files_analyzed
        = (analyze_project [] []).files_analyzed + 1 :=
  C8_amended_io_error ioFile "Permission denied" [] [] rfl

/-- C9: any falsy parsed root — null, empty map, empty sequence, empty
string, 0 or false — short-circuits both analyzers with zero findings; in
particular an empty mapping does not trigger the not-a-list-of-plays
error. -/
theorem C9_falsy_root (playbook_path fileName parentName compose_path : String)
    (y : Yaml) (h : y.falsy = true) :
    analyze_playbook playbook_path (FileContent.ok y) = []
    ∧ analyze_compose_file fileName parentName compose_path (FileContent.ok y)
        = [] := by
  constructor
  · simp [analyze_playbook, h]
  · simp [analyze_compose_file, h]

/-- Concrete instance of C9: the empty mapping root. -/
theorem C9_falsy_witness :
    (Yaml.map []).falsy = true
    ∧ (analyze_playbook "playbooks/empty.yml" (FileContent.ok (Yaml.map [])) = []
      ∧ analyze_compose_file "docker-compose.yml" "app"
          "stacks/app/docker-compose.yml" (FileContent.ok (Yaml.map [])) = []) :=
  ⟨rfl, C9_falsy_root "playbooks/empty.yml" "docker-compose.yml" "app"
    "stacks/app/docker-compose.yml" (Yaml.map []) rfl⟩

/-- C10: for a task with a `shell` or `command` key, the
`info`/`atomicity` dedicated-module finding is emitted exactly when one
of the six keywords occurs as a substring of `str(task)` — the rendering
of the whole task mapping, name and all — not merely of the command
text. -/
theorem C10_keyword_in_task_str (playbook_path : String) (task_idx : Nat)
    (task : Yaml) (hmap : task.isMap = true)
    (hsc : (task.hasKey "shell" || task.hasKey "command") = true) :
    ((taskIssues playbook_path task_idx task).any
        (fun i => i.severity == Severity.info && i.category == Category.atomicity))
      = moduleKeywords.any (fun keyword => strHasSub (pyStr task) keyword) := by
  cases hkw : moduleKeywords.any (fun keyword => strHasSub (pyStr task) keyword) <;>
    (simp only [taskIssues, hmap, if_true, hsc, hkw, List.any_append]
     split_ifs <;> simp_all)

/-- Concrete instance of C10: the keyword occurs only in the task's
name, and the finding is emitted nonetheless. -/
theorem C10_witness :
    (Yaml.isMap kwTask = true)
    ∧ ((kwTask.hasKey "shell" || kwTask.hasKey "command") = true)
    ∧ (moduleKeywords.any (fun keyword => strHasSub (pyStr kwTask) keyword) = true)
    ∧ ((taskIssues "playbooks/p.yml" 0 kwTask).any
        (fun i => i.severity == Severity.info && i.category == Category.atomicity))
      = moduleKeywords.any (fun keyword => strHasSub (pyStr kwTask) keyword) :=
  ⟨rfl, rfl, by decide,
    C10_keyword_in_task_str "playbooks/p.yml" 0 kwTask rfl rfl⟩

/-! ### Compose-standards lemmas (for C6 and C7) -/

lemma networkMsg_inj {a b : String} (h : networkMsg a = networkMsg b) : a = b := by
  have h2 := congrArg String.data h
  rw [networkMsg, networkMsg] at h2
  simp only [String.data_append] at h2
  have h3 := List.append_cancel_right h2
  have h4 := List.append_cancel_left h3
  exact String.ext h4

lemma socketMsg_inj {a b : String} (h : socketMsg a = socketMsg b) : a = b := by
  have h2 := congrArg String.data h
  rw [socketMsg, socketMsg] at h2
  simp only [String.data_append] at h2
  have h3 := List.append_cancel_right h2
  have h4 := List.append_cancel_left h3
  exact String.ext h4

lemma socketMsg_ne_networkMsg (a b : String) : socketMsg a ≠ networkMsg b := by
  intro h
  have h2 : (socketMsg a).data.head? = (networkMsg b).data.head? := by rw [h]
  rw [socketMsg, networkMsg] at h2
  simp [String.data_append] at h2

lemma countMsg_nil (m : String) : countMsg [] m = 0 := rfl

lemma countMsg_append (a b : List Issue) (m : String) :
    countMsg (a ++ b) m = countMsg a m + countMsg b m := by
  simp [countMsg, List.filter_append]

lemma countMsg_eq_zero (l : List Issue) (m : String)
    (h : ∀ i ∈ l, i.severity = Severity.error → i.message ≠ m) :
    countMsg l m = 0 := by
  rw [countMsg]
  have hfil : l.filter (fun i =>
      i.severity == Severity.error && i.category == Category.standards
        && i.message == m) = [] := by
    apply List.filter_eq_nil_iff.mpr
    intro i hi
    simp only [Bool.and_eq_true, beq_iff_eq, not_and]
    intro ⟨hsev, _⟩ hms
    exact h i hi hsev hms
  rw [hfil]
  rfl

lemma mem_netIssue {i : Issue} {compose_path : String} {isRoot : Bool}
    {e : String × Yaml} (h : i ∈ netIssue compose_path isRoot e) :
    i.message = networkMsg e.1 := by
  unfold netIssue at h
  split_ifs at h <;> simp at h
  rw [h.2]

lemma countMsg_netIssue_ne (compose_path : String) (isRoot : Bool)
    (e : String × Yaml) (n : String) (h : e.1 ≠ n) :
    countMsg (netIssue compose_path isRoot e) (networkMsg n) = 0 := by
  apply countMsg_eq_zero
  intro i hi _
  rw [mem_netIssue hi]
  exact fun hh => h (networkMsg_inj hh)

lemma countMsg_netIssue_self (compose_path : String) (isRoot : Bool)
    (n : String) (c : Yaml) (hc : c.isMap = true)
    (hext : ((c.lookup "external").getD (Yaml.bool false)).falsy = true) :
    countMsg (netIssue compose_path isRoot (n, c)) (networkMsg n)
      = if isRoot then 0 else 1 := by
  cases isRoot <;> simp [netIssue, countMsg, hc, hext]

lemma countMsg_netflat_ne (compose_path : String) (isRoot : Bool)
    (nkvs : List (String × Yaml)) (n : String)
    (h : ∀ e ∈ nkvs, e.1 ≠ n) :
    countMsg ((nkvs.map (netIssue compose_path isRoot)).flatten)
      (networkMsg n) = 0 := by
  induction nkvs with
  | nil => rfl
  | cons e rest ih =>
    rw [List.map_cons, List.flatten_cons, countMsg_append,
      countMsg_netIssue_ne compose_path isRoot e n (h e (List.mem_cons_self e rest)),
      ih (fun x hx => h x (List.mem_cons_of_mem e hx))]

lemma countMsg_netflat (compose_path : String) (isRoot : Bool)
    (nkvs : List (String × Yaml)) (n : String) (c : Yaml)
    (hnodup : (nkvs.map Prod.fst).Nodup)
    (hmem : (n, c) ∈ nkvs) (hc : c.isMap = true)
    (hext : ((c.lookup "external").getD (Yaml.bool false)).falsy = true) :
    countMsg ((nkvs.map (netIssue compose_path isRoot)).flatten)
      (networkMsg n) = if isRoot then 0 else 1 := by
  induction nkvs with
  | nil => cases hmem
  | cons e rest ih =>
    rw [List.map_cons] at hnodup
    obtain ⟨hnotin, hndrest⟩ := List.nodup_cons.mp hnodup
    rw [List.map_cons, List.flatten_cons, countMsg_append]
    rcases List.mem_cons.mp hmem with heq | hmem2
    · rw [← heq, countMsg_netIssue_self compose_path isRoot n c hc hext,
        countMsg_netflat_ne compose_path isRoot rest n ?keys]
      case keys =>
        intro x hx hxn
        apply hnotin
        have hen : e.1 = n := by rw [← heq]
        rw [hen]
        exact hxn ▸ List.mem_map.mpr ⟨x, hx, rfl⟩
      omega
    · have hkne : e.1 ≠ n := by
        intro hh
        exact hnotin (hh ▸ List.mem_map.mpr ⟨(n, c), hmem2, rfl⟩)
      rw [countMsg_netIssue_ne compose_path isRoot e n hkne, ih hndrest hmem2]
      simp

lemma mem_serviceSocket {i : Issue} {compose_path s : String} {vols : List Yaml}
    (h : i ∈ serviceSocketIssues compose_path s vols) :
    i.message = socketMsg s := by
  unfold serviceSocketIssues at h
  rw [List.mem_flatten] at h
  obtain ⟨l, hl, hi⟩ := h
  rw [List.mem_map] at hl
  obtain ⟨v, _, rfl⟩ := hl
  split_ifs at hi <;> simp at hi
  rw [hi]

lemma countMsg_serviceSocket_self (compose_path s : String) (vols : List Yaml) :
    countMsg (serviceSocketIssues compose_path s vols) (socketMsg s)
      = if s == "docker-socket-proxy" then 0 else vols.countP isSocketVolume := by
  induction vols with
  | nil =>
    cases hp : s == "docker-socket-proxy" <;>
      simp [serviceSocketIssues, countMsg, hp]
  | cons v rest ih =>
    rw [serviceSocketIssues] at ih ⊢
    rw [List.map_cons, List.flatten_cons, countMsg_append, ih, List.countP_cons]
    by_cases hp : s = "docker-socket-proxy" <;>
      cases hv : isSocketVolume v <;>
        (simp [hv, hp, countMsg]; try omega)

lemma countMsg_serviceSocket_ne (compose_path s : String) (vols : List Yaml)
    (t : String) (h : s ≠ t) :
    countMsg (serviceSocketIssues compose_path s vols) (socketMsg t) = 0 := by
  apply countMsg_eq_zero
  intro i hi _
  rw [mem_serviceSocket hi]
  exact fun hh => h (socketMsg_inj hh)

lemma socketLoop_cons_nonmap (compose_path s1 : String) (c1 : Yaml)
    (rest : List (String × Yaml)) (hm : c1.isMap = false) :
    socketLoop compose_path ((s1, c1) :: rest) = socketLoop compose_path rest := by
  simp [socketLoop, hm]

lemma socketLoop_cons_abort (compose_path s1 : String) (c1 : Yaml)
    (rest : List (String × Yaml)) (hm : c1.isMap = true)
    (hit : pyIter ((c1.lookup "volumes").getD (Yaml.seq [])) = none) :
    socketLoop compose_path ((s1, c1) :: rest) = ([], true) := by
  simp [socketLoop, hm, hit]

lemma socketLoop_cons_map_fst (compose_path s1 : String) (c1 : Yaml)
    (rest : List (String × Yaml)) (hm : c1.isMap = true) (vs : List Yaml)
    (hit : pyIter ((c1.lookup "volumes").getD (Yaml.seq [])) = some vs) :
    (socketLoop compose_path ((s1, c1) :: rest)).1
      = serviceSocketIssues compose_path s1 vs
          ++ (socketLoop compose_path rest).1 := by
  simp [socketLoop, hm, hit]

lemma socketLoop_cons_map_snd (compose_path s1 : String) (c1 : Yaml)
    (rest : List (String × Yaml)) (hm : c1.isMap = true) (vs : List Yaml)
    (hit : pyIter ((c1.lookup "volumes").getD (Yaml.seq [])) = some vs) :
    (socketLoop compose_path ((s1, c1) :: rest)).2
      = (socketLoop compose_path rest).2 := by
  simp [socketLoop, hm, hit]

lemma mem_socketLoop {i : Issue} {compose_path : String}
    {skvs : List (String × Yaml)} (h : i ∈ (socketLoop compose_path skvs).1) :
    ∃ e ∈ skvs, i.message = socketMsg e.1 := by
  induction skvs with
  | nil => cases h
  | cons e rest ih =>
    obtain ⟨s1, c1⟩ := e
    cases hm : c1.isMap with
    | false =>
      rw [socketLoop_cons_nonmap compose_path s1 c1 rest hm] at h
      obtain ⟨e2, he2, hm2⟩ := ih h
      exact ⟨e2, List.mem_cons_of_mem _ he2, hm2⟩
    | true =>
      cases hit : pyIter ((c1.lookup "volumes").getD (Yaml.seq [])) with
      | none =>
        rw [socketLoop_cons_abort compose_path s1 c1 rest hm hit] at h
        cases h
      | some vs =>
        rw [socketLoop_cons_map_fst compose_path s1 c1 rest hm vs hit] at h
        rcases List.mem_append.mp h with h1 | h2
        · exact ⟨(s1, c1), List.mem_cons_self _ _, mem_serviceSocket h1⟩
        · obtain ⟨e2, he2, hm2⟩ := ih h2
          exact ⟨e2, List.mem_cons_of_mem _ he2, hm2⟩

lemma countMsg_socketLoop_ne (compose_path : String)
    (skvs : List (String × Yaml)) (t : String)
    (h : ∀ e ∈ skvs, e.1 ≠ t) :
    countMsg (socketLoop compose_path skvs).1 (socketMsg t) = 0 := by
  apply countMsg_eq_zero
  intro i hi _
  obtain ⟨e, he, hmsg⟩ := mem_socketLoop hi
  rw [hmsg]
  exact fun hh => h e he (socketMsg_inj hh)

lemma countMsg_socketLoop_net (compose_path : String)
    (skvs : List (String × Yaml)) (n : String) :
    countMsg (socketLoop compose_path skvs).1 (networkMsg n) = 0 := by
  apply countMsg_eq_zero
  intro i hi _
  obtain ⟨e, _, hmsg⟩ := mem_socketLoop hi
  rw [hmsg]
  exact socketMsg_ne_networkMsg e.1 n

lemma mem_securityIssues_warning {i : Issue} {compose_path : String}
    {e : String × Yaml} (h : i ∈ securityIssues compose_path e) :
    i.severity = Severity.warning := by
  unfold securityIssues at h
  split_ifs at h <;> simp at h <;>
    rcases h with rfl | rfl <;> rfl

lemma countMsg_security (compose_path : String) (e : String × Yaml) (m : String) :
    countMsg (securityIssues compose_path e) m = 0 := by
  apply countMsg_eq_zero
  intro i hi herr
  have hw := mem_securityIssues_warning hi
  rw [hw] at herr
  exact absurd herr (by decide)

lemma countMsg_security_flat (compose_path : String)
    (skvs : List (String × Yaml)) (m : String) :
    countMsg ((skvs.map (securityIssues compose_path)).flatten) m = 0 := by
  induction skvs with
  | nil => rfl
  | cons e rest ih =>
    rw [List.map_cons, List.flatten_cons, countMsg_append, countMsg_security, ih]

lemma countMsg_check_security (compose_path : String) (data : Yaml) (m : String) :
    countMsg (check_compose_security compose_path data) m = 0 := by
  unfold check_compose_security
  split
  · exact countMsg_security_flat _ _ _
  · rfl

lemma countMsg_netflat_sock (compose_path : String) (isRoot : Bool)
    (nkvs : List (String × Yaml)) (s : String) :
    countMsg ((nkvs.map (netIssue compose_path isRoot)).flatten)
      (socketMsg s) = 0 := by
  apply countMsg_eq_zero
  intro i hi _
  rw [List.mem_flatten] at hi
  obtain ⟨l, hl, hil⟩ := hi
  rw [List.mem_map] at hl
  obtain ⟨e2, _, rfl⟩ := hl
  rw [mem_netIssue hil]
  exact Ne.symm (socketMsg_ne_networkMsg s e2.1)

lemma countMsg_socketLoop_self (compose_path s : String)
    (skvs : List (String × Yaml)) (c : Yaml) (vols : List Yaml)
    (hnodup : (skvs.map Prod.fst).Nodup)
    (hmem : (s, c) ∈ skvs) (hc : c.isMap = true)
    (hvols : (c.lookup "volumes").getD (Yaml.seq []) = .seq vols)
    (hnoab : (socketLoop compose_path skvs).2 = false) :
    countMsg (socketLoop compose_path skvs).1 (socketMsg s)
      = if s == "docker-socket-proxy" then 0 else vols.countP isSocketVolume := by
  induction skvs with
  | nil => cases hmem
  | cons e rest ih =>
    obtain ⟨s1, c1⟩ := e
    rw [List.map_cons] at hnodup
    obtain ⟨hnotin, hndrest⟩ := List.nodup_cons.mp hnodup
    cases hm : c1.isMap with
    | false =>
      rw [socketLoop_cons_nonmap compose_path s1 c1 rest hm] at hnoab ⊢
      rcases List.mem_cons.mp hmem with heq | hmem2
      · injection heq with h1 h2
        rw [← h2, hc] at hm
        cases hm
      · exact ih hndrest hmem2 hnoab
    | true =>
      cases hit : pyIter ((c1.lookup "volumes").getD (Yaml.seq [])) with
      | none =>
        rw [socketLoop_cons_abort compose_path s1 c1 rest hm hit] at hnoab
        simp at hnoab
      | some vs =>
        rw [socketLoop_cons_map_snd compose_path s1 c1 rest hm vs hit] at hnoab
        rw [socketLoop_cons_map_fst compose_path s1 c1 rest hm vs hit,
          countMsg_append]
        rcases List.mem_cons.mp hmem with heq | hmem2
        · injection heq with h1 h2
          subst h1
          rw [← h2, hvols] at hit
          simp only [pyIter, Option.some.injEq] at hit
          subst hit
          rw [countMsg_serviceSocket_self,
            countMsg_socketLoop_ne compose_path rest s
              (fun x hx hh => hnotin (hh ▸ List.mem_map.mpr ⟨x, hx, rfl⟩)),
            Nat.add_zero]
        · have hkne : s1 ≠ s := fun hh =>
            hnotin (hh ▸ List.mem_map.mpr ⟨(s, c), hmem2, rfl⟩)
          rw [countMsg_serviceSocket_ne compose_path s1 vs s hkne,
            ih hndrest hmem2 hnoab, Nat.zero_add]

lemma countMsg_composeServices_net (compose_path : String) (data : Yaml)
    (n : String) :
    countMsg (composeServices compose_path data) (networkMsg n) = 0 := by
  unfold composeServices
  split
  · split_ifs
    · exact countMsg_socketLoop_net _ _ _
    · rw [countMsg_append, countMsg_socketLoop_net, countMsg_check_security]
  · rfl
  · exact countMsg_check_security _ _ _

lemma countMsg_composeServices_sock (compose_path : String) (data : Yaml)
    (s : String) (skvs : List (String × Yaml)) (c : Yaml) (vols : List Yaml)
    (hsvc : data.lookup "services" = some (.map skvs))
    (hnodup : (skvs.map Prod.fst).Nodup)
    (hmem : (s, c) ∈ skvs) (hc : c.isMap = true)
    (hvols : (c.lookup "volumes").getD (Yaml.seq []) = .seq vols)
    (hnoab : (socketLoop compose_path skvs).2 = false) :
    countMsg (composeServices compose_path data) (socketMsg s)
      = if s == "docker-socket-proxy" then 0 else vols.countP isSocketVolume := by
  have hcs : composeServices compose_path data
      = (socketLoop compose_path skvs).1
          ++ check_compose_security compose_path data := by
    unfold composeServices
    rw [hsvc]
    simp [hnoab]
  rw [hcs, countMsg_append, countMsg_check_security,
    countMsg_socketLoop_self compose_path s skvs c vols hnodup hmem hc hvols hnoab,
    Nat.add_zero]

/-! ### Claims C6 and C7 -/

/-- C6: a map-valued network entry that does not set `external` to a
truthy value yields exactly one `error`/`standards` finding precisely
when the file is not the root orchestrator (named `docker-compose.yml`
directly under `stacks`); in the root orchestrator it yields none. -/
theorem C6_network_ownership (fileName parentName compose_path : String)
    (data : Yaml) (nkvs : List (String × Yaml)) (network_name : String)
    (ncfg : Yaml)
    (hnet : data.lookup "networks" = some (.map nkvs))
    (hnodup : (nkvs.map Prod.fst).Nodup)
    (hmem : (network_name, ncfg) ∈ nkvs)
    (hcfg : ncfg.isMap = true)
    (hext : ((ncfg.lookup "external").getD (Yaml.bool false)).falsy = true) :
    countMsg (analyze_compose_file fileName parentName compose_path
        (FileContent.ok data)) (networkMsg network_name)
      = if isRootOrchestrator fileName parentName then 0 else 1 := by
  obtain ⟨kvs, rfl⟩ : ∃ kvs, data = Yaml.map kvs := by
    cases data <;> first | exact ⟨_, rfl⟩ | simp [Yaml.lookup] at hnet
  have hfal : (Yaml.map kvs).falsy = false := by
    cases kvs with
    | nil => simp [Yaml.lookup] at hnet
    | cons a t => rfl
  have hout : analyze_compose_file fileName parentName compose_path
        (FileContent.ok (Yaml.map kvs))
      = (nkvs.map (netIssue compose_path
            (isRootOrchestrator fileName parentName))).flatten
          ++ composeServices compose_path (Yaml.map kvs) := by
    simp [analyze_compose_file, hfal, hnet]
  rw [hout, countMsg_append,
    countMsg_netflat compose_path _ nkvs network_name ncfg hnodup hmem hcfg hext,
    countMsg_composeServices_net, Nat.add_zero]

/-- Concrete instance of C6: a bridge network defined in a non-root
compose file yields exactly one `error`/`standards` finding. -/
theorem C6_witness :
    countMsg (analyze_compose_file "docker-compose.yml" "app"
        "stacks/app/docker-compose.yml" (FileContent.ok c6data))
        (networkMsg "traefik")
      = if isRootOrchestrator "docker-compose.yml" "app" then 0 else 1 :=
  C6_network_ownership "docker-compose.yml" "app" "stacks/app/docker-compose.yml"
    c6data [("traefik", Yaml.map [("driver", Yaml.str "bridge")])] "traefik"
    (Yaml.map [("driver", Yaml.str "bridge")])
    rfl (by simp) (List.mem_singleton.mpr rfl) rfl rfl

/-- C7: each string volume entry containing the Docker socket path yields
exactly one `error`/`standards` finding per matching entry unless the
service is named `docker-socket-proxy`, in which case it yields none. -/
theorem C7_socket_proxy (fileName parentName compose_path service_name : String)
    (data : Yaml) (skvs : List (String × Yaml)) (scfg : Yaml) (vols : List Yaml)
    (hnetok : networksOk data = true)
    (hsvc : data.lookup "services" = some (.map skvs))
    (hnodup : (skvs.map Prod.fst).Nodup)
    (hmem : (service_name, scfg) ∈ skvs)
    (hscfg : scfg.isMap = true)
    (hvols : (scfg.lookup "volumes").getD (Yaml.seq []) = .seq vols)
    (hnoabort : (socketLoop compose_path skvs).2 = false) :
    countMsg (analyze_compose_file fileName parentName compose_path
        (FileContent.ok data)) (socketMsg service_name)
      = if service_name == "docker-socket-proxy" then 0
        else vols.countP isSocketVolume := by
  obtain ⟨kvs, rfl⟩ : ∃ kvs, data = Yaml.map kvs := by
    cases data <;> first | exact ⟨_, rfl⟩ | simp [Yaml.lookup] at hsvc
  have hfal : (Yaml.map kvs).falsy = false := by
    cases kvs with
    | nil => simp [Yaml.lookup] at hsvc
    | cons a t => rfl
  have hsock := countMsg_composeServices_sock compose_path (Yaml.map kvs)
    service_name skvs scfg vols hsvc hnodup hmem hscfg hvols hnoabort
  cases hn : (Yaml.map kvs).lookup "networks" with
  | none =>
    have hout : analyze_compose_file fileName parentName compose_path
          (FileContent.ok (Yaml.map kvs))
        = composeServices compose_path (Yaml.map kvs) := by
      simp [analyze_compose_file, hfal, hn]
    rw [hout, hsock]
  | some nv =>
    have hnm : nv.isMap = true := by
      unfold networksOk at hnetok
      rw [hn] at hnetok
      simpa using hnetok
    obtain ⟨nkvs, rfl⟩ : ∃ nkvs, nv = Yaml.map nkvs := by
      cases nv <;> first | exact ⟨_, rfl⟩ | simp [Yaml.isMap] at hnm
    have hout : analyze_compose_file fileName parentName compose_path
          (FileContent.ok (Yaml.map kvs))
        = (nkvs.map (netIssue compose_path
              (isRootOrchestrator fileName parentName))).flatten
            ++ composeServices compose_path (Yaml.map kvs) := by
      simp [analyze_compose_file, hfal, hn]
    rw [hout, countMsg_append, countMsg_netflat_sock, hsock, Nat.zero_add]

/-- Concrete instance of C7: a service named `traefik` mounting the
Docker socket yields exactly one finding (its one matching volume
entry). -/
theorem C7_witness :
    countMsg (analyze_compose_file "docker-compose.yml" "app"
        "stacks/app/docker-compose.yml" (FileContent.ok c7data))
        (socketMsg "traefik")
      = if "traefik" == "docker-socket-proxy" then 0
        else [Yaml.str "/var/run/docker.sock:/var/run/docker.sock:ro"].countP
          isSocketVolume :=
  C7_socket_proxy "docker-compose.yml" "app" "stacks/app/docker-compose.yml"
    "traefik" c7data
    [("traefik", Yaml.map [("volumes",
      Yaml.seq [Yaml.str "/var/run/docker.sock:/var/run/docker.sock:ro"])])]
    (Yaml.map [("volumes",
      Yaml.seq [Yaml.str "/var/run/docker.sock:/var/run/docker.sock:ro"])])
    [Yaml.str "/var/run/docker.sock:/var/run/docker.sock:ro"]
    rfl rfl (by simp) (List.mem_singleton.mpr rfl) rfl rfl rfl

end IaC
